import Mathlib

/-
Shallow embedding of the identity-server handler
(synapse/handlers/identity.py) and the database-driver factory
(synapse/storage/engines/init) of this repository.

Remote HTTP calls, the persisted-binding store, the request signer and the
logger are external collaborators; they are embedded as explicit inputs
(the HTTP response each call would receive) and explicit output traces
(the network calls dialed, the store rows added or removed, the warnings
logged, the signed destination). Request bodies are not recorded in the
trace; only the host actually dialed and the request path are, which is
what the properties below inspect.
-/

set_option autoImplicit false

namespace Synapse

/-- A JSON-ish object: a finite string-keyed map with string values, given as
an association list whose first matching key wins, like a Python dict built
without duplicate keys. Error bodies arrive already parsed, so the
json.loads applied to a CodeMessageException message is the identity here. -/
abbrev Json := List (String × String)

/-- Credential dictionaries passed by the caller have the same shape. -/
abbrev Creds := Json

/-- Exceptions raised by the embedded Python code. -/
inductive PyErr where
  | synapseError (code : Nat) (msg : String) (errcode : Option String)
  | keyError (key : String)
  | runtimeError (msg : String)
  deriving DecidableEq, Repr

/-- The outcome of one HTTP round trip as the handler sees it: a parsed JSON
body on success, or an HttpResponseException / CodeMessageException carrying
the HTTP status code and the parsed error body. -/
inductive HttpResult where
  | ok (data : Json)
  | err (code : Nat) (body : Json)
  deriving DecidableEq, Repr

/-- One outbound network request: the host actually dialed and the path. -/
structure NetCall where
  host : String
  path : String
  deriving DecidableEq, Repr

/-- A row of the persisted-binding store. -/
structure Binding where
  user_id : String
  medium : String
  address : String
  id_server : String
  deriving DecidableEq, Repr

/-- The configuration the handler reads. The Python reads the trusted list
and the rewrite mapping from hs.config and the testing override directly
from hs; both are flattened into one record here. -/
structure HS where
  trusted_third_party_id_servers : List String
  rewrite_identity_server_urls : List (String × String)
  trust_any_id_server_just_for_testing_do_not_use : Bool
  deriving DecidableEq, Repr

/-- Python dict.get(host, host) on the rewrite mapping. -/
def rewriteGet (hs : HS) (host : String) : String :=
  match hs.rewrite_identity_server_urls.lookup host with
  | some v => v
  | none => host

/-- Python membership check on the rewrite mapping. -/
def rewriteMem (hs : HS) (host : String) : Bool :=
  (hs.rewrite_identity_server_urls.lookup host).isSome

/-- should_trust_id_server from identity.py lines 298-310. -/
def should_trust_id_server (hs : HS) (id_server : String) : Bool :=
  if !(hs.trusted_third_party_id_servers.contains id_server) then
    if hs.trust_any_id_server_just_for_testing_do_not_use then
      true
    else
      false
  else
    true

/-- Whether should_trust_id_server logs its warning, which happens exactly on
the testing-override path for a host outside the trusted list. -/
def should_trust_id_server_warns (hs : HS) (id_server : String) : Bool :=
  !(hs.trusted_third_party_id_servers.contains id_server) &&
    hs.trust_any_id_server_just_for_testing_do_not_use

/-- Dual-spelling extraction of the id_server credential field
(lines 51-56 and 95-100). -/
def credsIdServer (creds : Creds) : Option String :=
  match creds.lookup "id_server" with
  | some v => some v
  | none => creds.lookup "idServer"

/-- Dual-spelling extraction of the client_secret credential field
(lines 58-63 and 102-107). -/
def credsClientSecret (creds : Creds) : Option String :=
  match creds.lookup "client_secret" with
  | some v => some v
  | none => creds.lookup "clientSecret"

/-- HttpResponseException.to_synapse_error: keeps the HTTP status and reads
message and errcode out of the parsed error body. -/
def to_synapse_error (code : Nat) (body : Json) : PyErr :=
  .synapseError code ((body.lookup "error").getD "") (body.lookup "errcode")

/-- Codes.SERVER_NOT_TRUSTED from synapse.api.errors. -/
def SERVER_NOT_TRUSTED : String := "M_SERVER_NOT_TRUSTED"

def getValidated3pidPath : String := "/_matrix/identity/api/v1/3pid/getValidated3pid"

def bindPath : String := "/_matrix/identity/api/v1/3pid/bind"

def unbindPath : String := "/_matrix/identity/api/v1/3pid/unbind"

def emailRequestTokenPath : String := "/_matrix/identity/api/v1/validate/email/requestToken"

def msisdnRequestTokenPath : String := "/_matrix/identity/api/v1/validate/msisdn/requestToken"

/-- Result of threepid_from_creds: the returned value or the raised
exception, plus the network calls dialed and warnings logged. -/
structure VerifyResult where
  res : Except PyErr (Option Json)
  calls : List NetCall
  warns : Nat

/-- threepid_from_creds (identity.py lines 49-88). The GET response it would
receive is the resp argument. The sid lookup happens while building the
request dict, before the network call, and a missing key raises a KeyError
that the except clause (which only catches HttpResponseException) does not
catch. -/
def threepid_from_creds (hs : HS) (resp : HttpResult) (creds : Creds) : VerifyResult :=
  match credsIdServer creds with
  | none => ⟨.error (.synapseError 400 "No id_server in creds" none), [], 0⟩
  | some id_server =>
    match credsClientSecret creds with
    | none => ⟨.error (.synapseError 400 "No client_secret in creds" none), [], 0⟩
    | some _client_secret =>
      if !(should_trust_id_server hs id_server) then
        ⟨.ok none, [], 1⟩
      else
        let id_server2 := rewriteGet hs id_server
        match creds.lookup "sid" with
        | none => ⟨.error (.keyError "sid"), [], 0⟩
        | some _sid =>
          match resp with
          | .ok data =>
            if (data.lookup "medium").isSome then
              ⟨.ok (some data), [⟨id_server2, getValidated3pidPath⟩], 0⟩
            else
              ⟨.ok none, [⟨id_server2, getValidated3pidPath⟩], 0⟩
          | .err code body =>
            ⟨.error (to_synapse_error code body), [⟨id_server2, getValidated3pidPath⟩], 0⟩

/-- Result of bind_threepid: the returned value or the raised exception, the
network calls dialed and the store rows added. -/
structure BindResult where
  res : Except PyErr Json
  calls : List NetCall
  adds : List Binding

/-- bind_threepid (identity.py lines 90-130). The rewrite result is kept in a
separate variable id_server_host used only for the URL; the store add uses
the unrewritten id_server. A CodeMessageException from the POST is caught
and its parsed body returned as the result; a missing sid key raises a
KeyError while the request dict is built, before the network call. -/
def bind_threepid (hs : HS) (resp : HttpResult) (creds : Creds) (mxid : String) : BindResult :=
  match credsIdServer creds with
  | none => ⟨.error (.synapseError 400 "No id_server in creds" none), [], []⟩
  | some id_server =>
    match credsClientSecret creds with
    | none => ⟨.error (.synapseError 400 "No client_secret in creds" none), [], []⟩
    | some _client_secret =>
      let id_server_host := rewriteGet hs id_server
      match creds.lookup "sid" with
      | none => ⟨.error (.keyError "sid"), [], []⟩
      | some _sid =>
        match resp with
        | .err _code body =>
          ⟨.ok body, [⟨id_server_host, bindPath⟩], []⟩
        | .ok data =>
          match data.lookup "medium" with
          | none => ⟨.error (.keyError "medium"), [⟨id_server_host, bindPath⟩], []⟩
          | some medium =>
            match data.lookup "address" with
            | none => ⟨.error (.keyError "address"), [⟨id_server_host, bindPath⟩], []⟩
            | some address =>
              ⟨.ok data, [⟨id_server_host, bindPath⟩], [⟨mxid, medium, address, id_server⟩]⟩

/-- The threepid dictionary handed to the unbind entry points: medium and
address, plus the optional id_server key used only by try_unbind_threepid. -/
structure Threepid where
  medium : String
  address : String
  id_server : Option String
  deriving DecidableEq, Repr

/-- Result of try_unbind_threepid_with_id_server: the returned boolean or the
raised exception, the destination handed to the request signer, the network
calls dialed, the store rows removed and the warnings logged. -/
structure UnbindResult where
  res : Except PyErr Bool
  signedDest : String
  calls : List NetCall
  removes : List Binding
  warns : Nat

/-- try_unbind_threepid_with_id_server (identity.py lines 168-229).
build_auth_headers receives destination_is before the rewrite, so the signed
destination is the logical host. The Python then rebinds id_server to the
rewritten value (line 206), and every later use of the variable, including
the store removal at line 226, sees the rewritten host. The removal runs on
the success path and on the 400/404/501 path, not on the raising path. -/
def try_unbind_threepid_with_id_server (hs : HS) (resp : HttpResult) (mxid : String)
    (threepid : Threepid) (id_server : String) : UnbindResult :=
  let signedDest := id_server
  let id_server2 := rewriteGet hs id_server
  match resp with
  | .ok _data =>
    ⟨.ok true, signedDest, [⟨id_server2, unbindPath⟩],
      [⟨mxid, threepid.medium, threepid.address, id_server2⟩], 0⟩
  | .err code _body =>
    if code == 400 || code == 404 || code == 501 then
      ⟨.ok false, signedDest, [⟨id_server2, unbindPath⟩],
        [⟨mxid, threepid.medium, threepid.address, id_server2⟩], 1⟩
    else
      ⟨.error (.synapseError 502 "Failed to contact identity server" none), signedDest,
        [⟨id_server2, unbindPath⟩], [], 0⟩

/-- Result of try_unbind_threepid: aggregate outcome plus the concatenated
traces of the per-server attempts. -/
structure UnbindAllResult where
  res : Except PyErr Bool
  calls : List NetCall
  removes : List Binding
  warns : Nat

/-- The server set try_unbind_threepid resolves (lines 149-154). Python
truthiness of threepid.get applies: a missing id_server key and an empty
string both fall back to the store lookup. The store answer is the
storeServers argument. -/
def id_servers_for (storeServers : List String) (threepid : Threepid) : List String :=
  match threepid.id_server with
  | some s => if s == "" then storeServers else [s]
  | none => storeServers

/-- The sequential loop of try_unbind_threepid (lines 160-164): changed is
and-accumulated across the per-server calls; an exception raised by one call
propagates at once, so the remaining servers are not attempted. -/
def unbind_loop (hs : HS) (respFor : String → HttpResult) (mxid : String)
    (threepid : Threepid) : List String → Bool → UnbindAllResult
  | [], changed => ⟨.ok changed, [], [], 0⟩
  | id_server :: rest, changed =>
    let r := try_unbind_threepid_with_id_server hs (respFor id_server) mxid threepid id_server
    match r.res with
    | .error e => ⟨.error e, r.calls, r.removes, r.warns⟩
    | .ok b =>
      let tail := unbind_loop hs respFor mxid threepid rest (changed && b)
      ⟨tail.res, r.calls ++ tail.calls, r.removes ++ tail.removes, r.warns + tail.warns⟩

/-- try_unbind_threepid (identity.py lines 132-166). respFor gives the HTTP
response the unbind POST for each server would receive. -/
def try_unbind_threepid (hs : HS) (respFor : String → HttpResult) (storeServers : List String)
    (mxid : String) (threepid : Threepid) : UnbindAllResult :=
  let id_servers := id_servers_for storeServers threepid
  if id_servers.isEmpty then
    ⟨.ok false, [], [], 0⟩
  else
    unbind_loop hs respFor mxid threepid id_servers true

/-- Result of the token-request operations. -/
structure TokenResult where
  res : Except PyErr Json
  calls : List NetCall

/-- requestEmailToken (identity.py lines 231-261): trust gate raising a 400
with errcode SERVER_NOT_TRUSTED, one rewrite lookup, then the POST. -/
def requestEmailToken (hs : HS) (resp : HttpResult) (id_server : String) (_email : String)
    (_client_secret : String) (_send_attempt : String) (_next_link : Option String) :
    TokenResult :=
  if !(should_trust_id_server hs id_server) then
    ⟨.error (.synapseError 400 ("Untrusted ID server \x27" ++ id_server ++ "\x27")
        (some SERVER_NOT_TRUSTED)), []⟩
  else
    let id_server2 := rewriteGet hs id_server
    match resp with
    | .ok data => ⟨.ok data, [⟨id_server2, emailRequestTokenPath⟩]⟩
    | .err code body =>
      ⟨.error (to_synapse_error code body), [⟨id_server2, emailRequestTokenPath⟩]⟩

/-- requestMsisdnToken (identity.py lines 263-295): trust gate raising a 400
with errcode SERVER_NOT_TRUSTED, a rewrite lookup at line 273, and then a
second conditional rewrite lookup at lines 284-285 applied to the already
rewritten host, before the POST. -/
def requestMsisdnToken (hs : HS) (resp : HttpResult) (id_server : String) (_country : String)
    (_phone_number : String) (_client_secret : String) (_send_attempt : String)
    (_kwargs : List (String × String)) : TokenResult :=
  if !(should_trust_id_server hs id_server) then
    ⟨.error (.synapseError 400 ("Untrusted ID server \x27" ++ id_server ++ "\x27")
        (some SERVER_NOT_TRUSTED)), []⟩
  else
    let id_server1 := rewriteGet hs id_server
    let id_server2 :=
      if rewriteMem hs id_server1 then rewriteGet hs id_server1 else id_server1
    match resp with
    | .ok data => ⟨.ok data, [⟨id_server2, msisdnRequestTokenPath⟩]⟩
    | .err code body =>
      ⟨.error (to_synapse_error code body), [⟨id_server2, msisdnRequestTokenPath⟩]⟩

/-- A database_config mapping, of which only the name field is read here. -/
abbrev DbConfig := List (String × String)

/-- The engine object create_engine returns, tagged by the selected backend
and carrying the config it was constructed from. -/
inductive Engine where
  | sqlite3 (config : DbConfig)
  | postgres (config : DbConfig)
  | psycopg (config : DbConfig)
  deriving DecidableEq, Repr

/-- Which optional driver modules imported successfully. A failed import
replaces the engine class with the dummy_engine class whose constructor
raises a RuntimeError naming the missing module. -/
structure EnginesEnv where
  postgres_importable : Bool
  psycopg_importable : Bool
  sqlite_importable : Bool
  deriving DecidableEq, Repr

/-- Constructing Sqlite3Engine, or the dummy replacing it when the sqlite3
module is missing (engines init lines 43-46 and 23-30). The dummy message
format string appends the word Engine to its name argument, and the name
argument passed at the import-failure site already ends in Engine, so the
raised message carries the doubled EngineEngine suffix. -/
def mkSqlite3Engine (env : EnginesEnv) (config : DbConfig) : Except PyErr Engine :=
  if env.sqlite_importable then .ok (.sqlite3 config)
  else .error
    (.runtimeError "Cannot create Sqlite3EngineEngine -- sqlite3 module is not installed")

/-- Constructing PostgresEngine, or the dummy replacing it when the psycopg2
module is missing (lines 33-36 and 23-30); the doubled EngineEngine suffix
arises as in mkSqlite3Engine. -/
def mkPostgresEngine (env : EnginesEnv) (config : DbConfig) : Except PyErr Engine :=
  if env.postgres_importable then .ok (.postgres config)
  else .error
    (.runtimeError "Cannot create PostgresEngineEngine -- psycopg2 module is not installed")

/-- Constructing PsycopgEngine, or the dummy replacing it when the psycopg
module is missing (lines 38-41 and 23-30); the doubled EngineEngine suffix
arises as in mkSqlite3Engine. -/
def mkPsycopgEngine (env : EnginesEnv) (config : DbConfig) : Except PyErr Engine :=
  if env.psycopg_importable then .ok (.psycopg config)
  else .error
    (.runtimeError "Cannot create PsycopgEngineEngine -- psycopg module is not installed")

/-- create_engine (engines init lines 49-61). A missing name key raises a
KeyError, as the Python subscript would. -/
def create_engine (env : EnginesEnv) (database_config : DbConfig) : Except PyErr Engine :=
  match database_config.lookup "name" with
  | none => .error (.keyError "name")
  | some name =>
    if name == "sqlite3" then
      mkSqlite3Engine env database_config
    else if name == "psycopg2" then
      mkPostgresEngine env database_config
    else if name == "psycopg" then
      mkPsycopgEngine env database_config
    else
      .error (.runtimeError ("Unsupported database engine \x27" ++ name ++ "\x27"))

/-- The boolean a per-server unbind attempt contributed when it returned one,
and false when it raised; used to state the aggregate of try_unbind_threepid. -/
def resBool (r : Except PyErr Bool) : Bool :=
  match r with
  | .ok b => b
  | .error _ => false

/-- C7: should_trust_id_server returns true exactly when the host is in the
trusted list or the testing override is set, and logs its warning exactly on
the override path for a host outside the list. In particular it returns true
for every trusted host, returns the override flag for an untrusted host,
returns false for every host when the trusted list is empty and the override
unset, and being a total Bool-valued function it never raises. -/
theorem c7_should_trust_characterization (hs : HS) (host : String) :
    should_trust_id_server hs host
      = (hs.trusted_third_party_id_servers.contains host
          || hs.trust_any_id_server_just_for_testing_do_not_use)
    ∧ should_trust_id_server_warns hs host
      = (!(hs.trusted_third_party_id_servers.contains host)
          && hs.trust_any_id_server_just_for_testing_do_not_use) := by
  refine ⟨?_, rfl⟩
  unfold should_trust_id_server
  cases h : hs.trusted_third_party_id_servers.contains host <;>
    cases h2 : hs.trust_any_id_server_just_for_testing_do_not_use <;> simp [h, h2]

/-- C6: for a credential dictionary with both spellings of id_server absent,
or with both spellings of client_secret absent, threepid_from_creds and
bind_threepid fail with a 400 SynapseError and make no network call. -/
theorem c6_missing_creds_invalid_request (hs : HS) (resp : HttpResult) (creds : Creds)
    (mxid : String)
    (h : credsIdServer creds = none ∨ credsClientSecret creds = none) :
    (∃ msg, (threepid_from_creds hs resp creds).res = .error (.synapseError 400 msg none)
      ∧ (bind_threepid hs resp creds mxid).res = .error (.synapseError 400 msg none))
    ∧ (threepid_from_creds hs resp creds).calls = []
    ∧ (bind_threepid hs resp creds mxid).calls = [] := by
  rcases h with h | h
  · refine ⟨⟨"No id_server in creds", ?_, ?_⟩, ?_, ?_⟩ <;>
      simp [threepid_from_creds, bind_threepid, h]
  · cases hid : credsIdServer creds with
    | none =>
      refine ⟨⟨"No id_server in creds", ?_, ?_⟩, ?_, ?_⟩ <;>
        simp [threepid_from_creds, bind_threepid, hid]
    | some s =>
      refine ⟨⟨"No client_secret in creds", ?_, ?_⟩, ?_, ?_⟩ <;>
        simp [threepid_from_creds, bind_threepid, hid, h]

/-- Witness for C6 at the empty credential dictionary. -/
theorem c6_missing_creds_invalid_request_witness :
    (credsIdServer [] = none ∨ credsClientSecret [] = none)
    ∧ ((∃ msg,
          (threepid_from_creds ⟨[], [], false⟩ (.ok []) []).res
            = .error (.synapseError 400 msg none)
          ∧ (bind_threepid ⟨[], [], false⟩ (.ok []) [] "@u:example").res
            = .error (.synapseError 400 msg none))
        ∧ (threepid_from_creds ⟨[], [], false⟩ (.ok []) []).calls = []
        ∧ (bind_threepid ⟨[], [], false⟩ (.ok []) [] "@u:example").calls = []) :=
  ⟨Or.inl rfl,
    c6_missing_creds_invalid_request ⟨[], [], false⟩ (.ok []) [] "@u:example" (Or.inl rfl)⟩

/-- C3: a bind whose remote request fails with a structured code+message
error response does not raise: it returns the parsed error body as its
result, and persists nothing. -/
theorem c3_bind_error_body_returned (hs : HS) (creds : Creds) (mxid : String)
    (code : Nat) (body : Json) (idv : String)
    (hid : credsIdServer creds = some idv)
    (hcs : (credsClientSecret creds).isSome = true)
    (hsid : (creds.lookup "sid").isSome = true) :
    (bind_threepid hs (.err code body) creds mxid).res = .ok body
    ∧ (bind_threepid hs (.err code body) creds mxid).adds = [] := by
  obtain ⟨cs, hcs⟩ := Option.isSome_iff_exists.mp hcs
  obtain ⟨sid, hsid⟩ := Option.isSome_iff_exists.mp hsid
  simp [bind_threepid, hid, hcs, hsid]

/-- Witness for C3 at the spec scenario: the structured remote error body
with errcode M_FOO is returned verbatim as the result. -/
theorem c3_bind_error_body_returned_witness :
    credsIdServer [("id_server", "id.example"), ("client_secret", "s3cr3t"), ("sid", "abc")]
      = some "id.example"
    ∧ (bind_threepid ⟨[], [], false⟩ (.err 500 [("errcode", "M_FOO"), ("error", "no")])
        [("id_server", "id.example"), ("client_secret", "s3cr3t"), ("sid", "abc")]
        "@alice:home.example").res = .ok [("errcode", "M_FOO"), ("error", "no")]
    ∧ (bind_threepid ⟨[], [], false⟩ (.err 500 [("errcode", "M_FOO"), ("error", "no")])
        [("id_server", "id.example"), ("client_secret", "s3cr3t"), ("sid", "abc")]
        "@alice:home.example").adds = [] :=
  ⟨rfl,
    c3_bind_error_body_returned ⟨[], [], false⟩
      [("id_server", "id.example"), ("client_secret", "s3cr3t"), ("sid", "abc")]
      "@alice:home.example" 500 [("errcode", "M_FOO"), ("error", "no")] "id.example"
      rfl rfl rfl⟩

/-- Every per-server unbind attempt dials exactly one request, to the
rewritten host, whatever the response was. -/
theorem unbind_one_calls_eq (hs : HS) (resp : HttpResult) (mxid : String)
    (threepid : Threepid) (id_server : String) :
    (try_unbind_threepid_with_id_server hs resp mxid threepid id_server).calls
      = [⟨rewriteGet hs id_server, unbindPath⟩] := by
  cases resp with
  | ok data => rfl
  | err code body =>
    unfold try_unbind_threepid_with_id_server
    dsimp only
    split <;> rfl

/-- When every per-server attempt in the list returns a boolean, the loop of
try_unbind_threepid visits every server, dials each rewritten host once, and
returns the and-accumulation of the per-server results. -/
theorem unbind_loop_no_fatal (hs : HS) (respFor : String → HttpResult) (mxid : String)
    (threepid : Threepid) (l : List String) (changed : Bool)
    (h : ∀ s ∈ l, ∃ b,
        (try_unbind_threepid_with_id_server hs (respFor s) mxid threepid s).res = .ok b) :
    (unbind_loop hs respFor mxid threepid l changed).res
      = .ok (changed && l.all (fun s =>
          resBool (try_unbind_threepid_with_id_server hs (respFor s) mxid threepid s).res))
    ∧ (unbind_loop hs respFor mxid threepid l changed).calls
      = l.map (fun s => ⟨rewriteGet hs s, unbindPath⟩) := by
  induction l generalizing changed with
  | nil => simp [unbind_loop]
  | cons s rest ih =>
    obtain ⟨b, hb⟩ := h s (by simp)
    have ihr := ih (changed && b) (fun x hx => h x (by simp [hx]))
    simp only [unbind_loop, hb]
    constructor
    · rw [ihr.1, List.all_cons]
      simp [resBool, hb, Bool.and_assoc]
    · rw [ihr.2, unbind_one_calls_eq]
      simp

/-- C4 (amended): try_unbind_threepid returns false with zero network calls
when the resolved server set is empty; otherwise, as long as every per-host
attempt returns a boolean (success or unsupported response, no fatal 502
raise), every host in the set is dialed once and the aggregate result is the
logical AND of the per-host results, so a host returning false does not
prevent attempting the others. A fatal raise instead propagates and stops
the iteration. -/
theorem c4_unbind_all_aggregate (hs : HS) (respFor : String → HttpResult)
    (storeServers : List String) (mxid : String) (threepid : Threepid) :
    (id_servers_for storeServers threepid = [] →
      try_unbind_threepid hs respFor storeServers mxid threepid = ⟨.ok false, [], [], 0⟩)
    ∧ (id_servers_for storeServers threepid ≠ [] →
      (∀ s ∈ id_servers_for storeServers threepid, ∃ b,
          (try_unbind_threepid_with_id_server hs (respFor s) mxid threepid s).res = .ok b) →
      (try_unbind_threepid hs respFor storeServers mxid threepid).res
        = .ok ((id_servers_for storeServers threepid).all (fun s =>
            resBool (try_unbind_threepid_with_id_server hs (respFor s) mxid threepid s).res))
      ∧ (try_unbind_threepid hs respFor storeServers mxid threepid).calls
        = (id_servers_for storeServers threepid).map
            (fun s => ⟨rewriteGet hs s, unbindPath⟩)) := by
  constructor
  · intro h
    simp [try_unbind_threepid, h]
  · intro hne h
    have hfold := unbind_loop_no_fatal hs respFor mxid threepid
      (id_servers_for storeServers threepid) true h
    have hempty : (id_servers_for storeServers threepid).isEmpty = false := by
      cases hl : id_servers_for storeServers threepid with
      | nil => exact absurd hl hne
      | cons a rest => rfl
    constructor
    · rw [try_unbind_threepid, hempty]
      simp only [Bool.false_eq_true, if_false]
      rw [hfold.1, Bool.true_and]
    · rw [try_unbind_threepid, hempty]
      simp only [Bool.false_eq_true, if_false]
      exact hfold.2

/-- Witness for C4: an empty store set yields false with no calls; with two
recorded servers both answering 404, both are dialed and the aggregate is
false. -/
theorem c4_unbind_all_aggregate_witness :
    try_unbind_threepid ⟨[], [], false⟩ (fun _ => .err 404 []) [] "@u:example"
        ⟨"email", "a@b.example", none⟩ = ⟨.ok false, [], [], 0⟩
    ∧ (try_unbind_threepid ⟨[], [], false⟩ (fun _ => .err 404 []) ["a", "b"] "@u:example"
        ⟨"email", "a@b.example", none⟩).res = .ok false
    ∧ (try_unbind_threepid ⟨[], [], false⟩ (fun _ => .err 404 []) ["a", "b"] "@u:example"
        ⟨"email", "a@b.example", none⟩).calls
        = [⟨"a", unbindPath⟩, ⟨"b", unbindPath⟩] := by
  have h2 := (c4_unbind_all_aggregate ⟨[], [], false⟩ (fun _ => .err 404 []) ["a", "b"]
      "@u:example" ⟨"email", "a@b.example", none⟩).2 (by decide) (fun s _ => ⟨false, rfl⟩)
  refine ⟨(c4_unbind_all_aggregate ⟨[], [], false⟩ (fun _ => .err 404 []) [] "@u:example"
      ⟨"email", "a@b.example", none⟩).1 rfl, ?_, ?_⟩
  · rw [h2.1]
    rfl
  · rw [h2.2]
    rfl

/-- C4 counterexample to the claim as stated: with recorded servers a and b
and a fatal 500 from a, the 502 SynapseError propagates out of the loop and
b is never dialed, so one failing host does prevent attempting the others. -/
theorem c4_fatal_aborts_siblings :
    (try_unbind_threepid ⟨[], [], false⟩
        (fun s => if s == "a" then .err 500 [] else .ok []) ["a", "b"] "@u:example"
        ⟨"email", "a@b.example", none⟩).res
      = .error (.synapseError 502 "Failed to contact identity server" none)
    ∧ (try_unbind_threepid ⟨[], [], false⟩
        (fun s => if s == "a" then .err 500 [] else .ok []) ["a", "b"] "@u:example"
        ⟨"email", "a@b.example", none⟩).calls = [⟨"a", unbindPath⟩] :=
  ⟨rfl, rfl⟩

/-- C10: create_engine returns an engine for the three supported backend
names when the matching driver module imported, raises the RuntimeError
naming any other name, and raises the RuntimeError naming the missing driver
module when the selected backend is supported but its module did not import. -/
theorem c10_create_engine (env : EnginesEnv) (database_config : DbConfig) (name : String)
    (hname : database_config.lookup "name" = some name) :
    ((name = "sqlite3" ∧ env.sqlite_importable = true)
      ∨ (name = "psycopg2" ∧ env.postgres_importable = true)
      ∨ (name = "psycopg" ∧ env.psycopg_importable = true) →
      ∃ e, create_engine env database_config = .ok e)
    ∧ (name ≠ "sqlite3" → name ≠ "psycopg2" → name ≠ "psycopg" →
      create_engine env database_config
        = .error (.runtimeError ("Unsupported database engine \x27" ++ name ++ "\x27")))
    ∧ (name = "sqlite3" → env.sqlite_importable = false →
      create_engine env database_config
        = .error (.runtimeError
            "Cannot create Sqlite3EngineEngine -- sqlite3 module is not installed"))
    ∧ (name = "psycopg2" → env.postgres_importable = false →
      create_engine env database_config
        = .error (.runtimeError
            "Cannot create PostgresEngineEngine -- psycopg2 module is not installed"))
    ∧ (name = "psycopg" → env.psycopg_importable = false →
      create_engine env database_config
        = .error (.runtimeError
            "Cannot create PsycopgEngineEngine -- psycopg module is not installed")) := by
  refine ⟨?_, ?_, ?_, ?_, ?_⟩
  · rintro (⟨h1, h2⟩ | ⟨h1, h2⟩ | ⟨h1, h2⟩) <;> subst h1
    · exact ⟨.sqlite3 database_config, by simp [create_engine, hname, mkSqlite3Engine, h2]⟩
    · exact ⟨.postgres database_config, by simp [create_engine, hname, mkPostgresEngine, h2]⟩
    · exact ⟨.psycopg database_config, by simp [create_engine, hname, mkPsycopgEngine, h2]⟩
  · intro h1 h2 h3
    simp [create_engine, hname, h1, h2, h3]
  · intro h1 h2
    subst h1
    simp [create_engine, hname, mkSqlite3Engine, h2]
  · intro h1 h2
    subst h1
    simp [create_engine, hname, mkPostgresEngine, h2]
  · intro h1 h2
    subst h1
    simp [create_engine, hname, mkPsycopgEngine, h2]

/-- Witness for C10: a successful sqlite3 selection, an unsupported name, and
a supported name whose driver module is missing. -/
theorem c10_create_engine_witness :
    (∃ e, create_engine ⟨false, false, true⟩ [("name", "sqlite3")] = .ok e)
    ∧ create_engine ⟨false, false, true⟩ [("name", "mysql")]
        = .error (.runtimeError ("Unsupported database engine \x27" ++ "mysql" ++ "\x27"))
    ∧ create_engine ⟨false, false, true⟩ [("name", "psycopg2")]
        = .error (.runtimeError
            "Cannot create PostgresEngineEngine -- psycopg2 module is not installed") :=
  ⟨(c10_create_engine ⟨false, false, true⟩ [("name", "sqlite3")] "sqlite3" rfl).1
      (Or.inl ⟨rfl, rfl⟩),
    (c10_create_engine ⟨false, false, true⟩ [("name", "mysql")] "mysql" rfl).2.1
      (by decide) (by decide) (by decide),
    (c10_create_engine ⟨false, false, true⟩ [("name", "psycopg2")] "psycopg2" rfl).2.2.2.1
      rfl rfl⟩

/-- C8: for an identity server the trust predicate rejects, the two
trust-gated flows fail with different shapes: threepid_from_creds returns
none without raising and without dialing, while requestEmailToken and
requestMsisdnToken raise the 400 SynapseError with errcode
M_SERVER_NOT_TRUSTED before any network call. -/
theorem c8_untrusted_asymmetry (hs : HS) (resp : HttpResult) (creds : Creds)
    (idv email cs sa country phone : String) (next_link : Option String)
    (kwargs : List (String × String))
    (hid : credsIdServer creds = some idv)
    (hcs : (credsClientSecret creds).isSome = true)
    (htrust : should_trust_id_server hs idv = false) :
    (threepid_from_creds hs resp creds).res = .ok none
    ∧ (threepid_from_creds hs resp creds).calls = []
    ∧ (requestEmailToken hs resp idv email cs sa next_link).res
        = .error (.synapseError 400 ("Untrusted ID server \x27" ++ idv ++ "\x27")
            (some SERVER_NOT_TRUSTED))
    ∧ (requestEmailToken hs resp idv email cs sa next_link).calls = []
    ∧ (requestMsisdnToken hs resp idv country phone cs sa kwargs).res
        = .error (.synapseError 400 ("Untrusted ID server \x27" ++ idv ++ "\x27")
            (some SERVER_NOT_TRUSTED))
    ∧ (requestMsisdnToken hs resp idv country phone cs sa kwargs).calls = [] := by
  obtain ⟨cs2, hcs⟩ := Option.isSome_iff_exists.mp hcs
  refine ⟨?_, ?_, ?_, ?_, ?_, ?_⟩ <;>
    simp [threepid_from_creds, requestEmailToken, requestMsisdnToken, hid, hcs, htrust]

/-- Witness for C8 on an empty trusted list with the override unset. -/
theorem c8_untrusted_asymmetry_witness :
    should_trust_id_server ⟨[], [], false⟩ "evil.example" = false
    ∧ ((threepid_from_creds ⟨[], [], false⟩ (.ok [])
          [("id_server", "evil.example"), ("client_secret", "s")]).res = .ok none
      ∧ (threepid_from_creds ⟨[], [], false⟩ (.ok [])
          [("id_server", "evil.example"), ("client_secret", "s")]).calls = []
      ∧ (requestEmailToken ⟨[], [], false⟩ (.ok []) "evil.example" "e@x.y" "s" "1" none).res
          = .error (.synapseError 400 "Untrusted ID server \x27evil.example\x27"
              (some SERVER_NOT_TRUSTED))
      ∧ (requestEmailToken ⟨[], [], false⟩ (.ok []) "evil.example" "e@x.y" "s" "1"
          none).calls = []
      ∧ (requestMsisdnToken ⟨[], [], false⟩ (.ok []) "evil.example" "GB" "07700900001" "s" "1"
          []).res
          = .error (.synapseError 400 "Untrusted ID server \x27evil.example\x27"
              (some SERVER_NOT_TRUSTED))
      ∧ (requestMsisdnToken ⟨[], [], false⟩ (.ok []) "evil.example" "GB" "07700900001" "s" "1"
          []).calls = []) :=
  ⟨rfl,
    c8_untrusted_asymmetry ⟨[], [], false⟩ (.ok [])
      [("id_server", "evil.example"), ("client_secret", "s")]
      "evil.example" "e@x.y" "s" "1" "GB" "07700900001" none [] rfl rfl rfl⟩

/-- C9: a credential dictionary with id_server and client_secret present but
no sid key makes bind_threepid fail with a KeyError for sid under every
configuration (bind has no trust gate), and makes threepid_from_creds fail
the same way whenever its id_server is trusted; in neither case is the
failure a 400 SynapseError, and no network call is made. -/
theorem c9_missing_sid_keyerror (hs : HS) (resp : HttpResult) (creds : Creds) (mxid : String)
    (idv : String)
    (hid : credsIdServer creds = some idv)
    (hcs : (credsClientSecret creds).isSome = true)
    (hsid : creds.lookup "sid" = none) :
    (bind_threepid hs resp creds mxid).res = .error (.keyError "sid")
    ∧ (bind_threepid hs resp creds mxid).calls = []
    ∧ (should_trust_id_server hs idv = true →
        (threepid_from_creds hs resp creds).res = .error (.keyError "sid")
        ∧ (threepid_from_creds hs resp creds).calls = []) := by
  obtain ⟨cs, hcs⟩ := Option.isSome_iff_exists.mp hcs
  refine ⟨?_, ?_, fun htrust => ?_⟩
  · simp [bind_threepid, hid, hcs, hsid]
  · simp [bind_threepid, hid, hcs, hsid]
  · constructor <;> simp [threepid_from_creds, hid, hcs, hsid, htrust]

/-- Witness for C9: bind_threepid raises the sid KeyError even under an
untrusted configuration (empty trusted list, override unset), and
threepid_from_creds raises it under a trusted one. -/
theorem c9_missing_sid_keyerror_witness :
    ((bind_threepid ⟨[], [], false⟩ (.ok [])
          [("id_server", "id.example"), ("client_secret", "s")] "@u:example").res
          = .error (.keyError "sid")
      ∧ (bind_threepid ⟨[], [], false⟩ (.ok [])
          [("id_server", "id.example"), ("client_secret", "s")] "@u:example").calls = [])
    ∧ should_trust_id_server ⟨["id.example"], [], false⟩ "id.example" = true
    ∧ ((threepid_from_creds ⟨["id.example"], [], false⟩ (.ok [])
          [("id_server", "id.example"), ("client_secret", "s")]).res
          = .error (.keyError "sid")
      ∧ (threepid_from_creds ⟨["id.example"], [], false⟩ (.ok [])
          [("id_server", "id.example"), ("client_secret", "s")]).calls = []) :=
  ⟨⟨(c9_missing_sid_keyerror ⟨[], [], false⟩ (.ok [])
        [("id_server", "id.example"), ("client_secret", "s")] "@u:example" "id.example"
        rfl rfl rfl).1,
      (c9_missing_sid_keyerror ⟨[], [], false⟩ (.ok [])
        [("id_server", "id.example"), ("client_secret", "s")] "@u:example" "id.example"
        rfl rfl rfl).2.1⟩,
    rfl,
    (c9_missing_sid_keyerror ⟨["id.example"], [], false⟩ (.ok [])
        [("id_server", "id.example"), ("client_secret", "s")] "@u:example" "id.example"
        rfl rfl rfl).2.2 rfl⟩

/-- C1: evaluation of the source embedding at the failing input. With the
rewrite rule mapping id.example to proxy.example, the unbind signs with the
logical host id.example but removes the local binding keyed by the rewritten
dial address proxy.example, while a bind through the same rule persists the
binding under the logical host: the removal key therefore differs from the
logical id_server the claim requires, and from the key bind stored. -/
theorem c1_unbind_removal_keyed_by_rewritten_host :
    (try_unbind_threepid_with_id_server ⟨[], [("id.example", "proxy.example")], false⟩
        (.ok []) "@alice:home.example" ⟨"email", "alice@example.com", none⟩
        "id.example").signedDest = "id.example"
    ∧ (try_unbind_threepid_with_id_server ⟨[], [("id.example", "proxy.example")], false⟩
        (.ok []) "@alice:home.example" ⟨"email", "alice@example.com", none⟩
        "id.example").removes
        = [⟨"@alice:home.example", "email", "alice@example.com", "proxy.example"⟩]
    ∧ (bind_threepid ⟨[], [("id.example", "proxy.example")], false⟩
        (.ok [("medium", "email"), ("address", "alice@example.com")])
        [("id_server", "id.example"), ("client_secret", "s3cr3t"), ("sid", "abc")]
        "@alice:home.example").adds
        = [⟨"@alice:home.example", "email", "alice@example.com", "id.example"⟩]
    ∧ ("proxy.example" : String) ≠ "id.example" := by
  refine ⟨rfl, rfl, rfl, ?_⟩
  decide

/-- C2: evaluation of the source embedding at the failing input. At a 404 the
unbind returns false and warns as the claim says, and at a 500 it raises the
502 SynapseError and removes nothing, but on the 404 path with the rewrite
rule active the removed binding is keyed by the rewritten host
proxy.example, not the id_server value id.example that was passed in. -/
theorem c2_unbind_404_removes_rewritten_key :
    (try_unbind_threepid_with_id_server ⟨[], [("id.example", "proxy.example")], false⟩
        (.err 404 []) "@alice:home.example" ⟨"email", "alice@example.com", none⟩
        "id.example").res = .ok false
    ∧ (try_unbind_threepid_with_id_server ⟨[], [("id.example", "proxy.example")], false⟩
        (.err 404 []) "@alice:home.example" ⟨"email", "alice@example.com", none⟩
        "id.example").warns = 1
    ∧ (try_unbind_threepid_with_id_server ⟨[], [("id.example", "proxy.example")], false⟩
        (.err 404 []) "@alice:home.example" ⟨"email", "alice@example.com", none⟩
        "id.example").removes
        = [⟨"@alice:home.example", "email", "alice@example.com", "proxy.example"⟩]
    ∧ (try_unbind_threepid_with_id_server ⟨[], [("id.example", "proxy.example")], false⟩
        (.err 500 []) "@alice:home.example" ⟨"email", "alice@example.com", none⟩
        "id.example").res
        = .error (.synapseError 502 "Failed to contact identity server" none)
    ∧ (try_unbind_threepid_with_id_server ⟨[], [("id.example", "proxy.example")], false⟩
        (.err 500 []) "@alice:home.example" ⟨"email", "alice@example.com", none⟩
        "id.example").removes = []
    ∧ ("proxy.example" : String) ≠ "id.example" := by
  refine ⟨rfl, rfl, rfl, rfl, rfl, ?_⟩
  decide

/-- C5: evaluation of the source embedding at the failing input. With the
rewrite rules mapping a to b and b to c, requestMsisdnToken applies the
rewrite lookup twice and dials c, although a single lookup of the logical
host a yields b; requestEmailToken applies it once and dials b. -/
theorem c5_msisdn_double_rewrite :
    (requestMsisdnToken ⟨["a"], [("a", "b"), ("b", "c")], false⟩ (.ok []) "a" "GB"
        "07700900001" "secret" "1" []).calls = [⟨"c", msisdnRequestTokenPath⟩]
    ∧ rewriteGet ⟨["a"], [("a", "b"), ("b", "c")], false⟩ "a" = "b"
    ∧ (requestEmailToken ⟨["a"], [("a", "b"), ("b", "c")], false⟩ (.ok []) "a"
        "e@x.y" "secret" "1" none).calls = [⟨"b", emailRequestTokenPath⟩]
    ∧ ("c" : String) ≠ "b" := by
  refine ⟨rfl, rfl, rfl, ?_⟩
  decide

end Synapse
